import Mathlib

/-!
# Pong: the per-frame simulation of `src/main.cpp`

A shallow embedding of the game state (the globals of `main.cpp` together with
the loop-local collision counter of `main`) and of the code that updates it:
`processInput`, `framebufferSizeCallback`, and the body of the `while` loop of
`main`, split into its consecutive stages.

Number model.  `float` and `double` values are embedded as exact rationals
(`ℚ`): rounding, infinities and NaN are outside the model, and the literal
`1.1f` is the rational `11/10`.  `unsigned int` values are natural numbers
with wrap-around modulo `2 ^ 32` written out where the code increments them;
the sentinel `-1` stored in `framesSinceLastCollision` is `2 ^ 32 - 1`.
-/

namespace Pong

/-! ## Constants (main.cpp, lines 15-23) -/

def paddleSpeed : ℚ := 175

def paddleHeight : ℚ := 100

def halfPaddleHeight : ℚ := paddleHeight / 2

def paddleWidth : ℚ := 10

def halfPaddleWidth : ℚ := paddleWidth / 2

def ballDiameter : ℚ := 16

def ballRadius : ℚ := ballDiameter / 2

def offset : ℚ := ballRadius

def paddleBoundary : ℚ := halfPaddleHeight + offset

/-- The number of values of an `unsigned int`. -/
def uintSize : Nat := 2 ^ 32

/-- The value `-1` converted to `unsigned int`: the "no previous collision" sentinel. -/
def unsetFrames : Nat := uintSize - 1

/-- The local `framesThreshold` of `main` (line 430). -/
def framesThreshold : Nat := 10

/-! ## Data model -/

/-- The `struct vec2` of the source. -/
structure vec2 where
  x : ℚ
  y : ℚ
deriving DecidableEq

/-- The mutable globals of `main.cpp` and the loop-local `framesSinceLastCollision`. -/
structure State where
  scrWidth : Nat
  scrHeight : Nat
  paddleOffsets0 : vec2
  paddleOffsets1 : vec2
  ballOffset : vec2
  paddleVelocities0 : ℚ
  paddleVelocities1 : ℚ
  initBallVelocity : vec2
  ballVelocity : vec2
  leftScore : Nat
  rightScore : Nat
  isPaused : Bool
  pauseKeyDown : Bool
  gameSpeed : ℚ
  framesSinceLastCollision : Nat
deriving DecidableEq

/-- The element `paddleOffsets[i]`, for `i` in `{0, 1}`. -/
def paddleOffsets (s : State) (i : Nat) : vec2 :=
  if i = 0 then s.paddleOffsets0 else s.paddleOffsets1

/-- The element `paddleVelocities[i]`, for `i` in `{0, 1}`. -/
def paddleVelocities (s : State) (i : Nat) : ℚ :=
  if i = 0 then s.paddleVelocities0 else s.paddleVelocities1

/-- The state when the `while` loop of `main` is first entered (lines 10-41, 370-381,
405-406, 429): an 800 x 600 screen, both paddles at mid-height, the ball in the centre
and the collision counter unset. -/
def initState : State where
  scrWidth := 800
  scrHeight := 600
  paddleOffsets0 := ⟨35, 600 / 2⟩
  paddleOffsets1 := ⟨800 - 35, 600 / 2⟩
  ballOffset := ⟨800 / 2, 600 / 2⟩
  paddleVelocities0 := 0
  paddleVelocities1 := 0
  initBallVelocity := ⟨150, 150⟩
  ballVelocity := ⟨150, 150⟩
  leftScore := 0
  rightScore := 0
  isPaused := false
  pauseKeyDown := false
  gameSpeed := 1
  framesSinceLastCollision := unsetFrames

/-! ## `framebufferSizeCallback` (lines 250-258) -/

/-- The resize callback: stores the new size and re-anchors the right paddle. -/
def framebufferSizeCallback (width height : Nat) (s : State) : State :=
  { s with
    scrWidth := width
    scrHeight := height
    paddleOffsets1 := ⟨(width : ℚ) - 35, s.paddleOffsets1.y⟩ }

/-! ## `processInput` (lines 260-310) -/

/-- The key states `processInput` polls with `glfwGetKey` (`true` is `GLFW_PRESS`). -/
structure Keys where
  w : Bool
  s : Bool
  up : Bool
  down : Bool
  p : Bool
deriving DecidableEq

/-- Lines 268-275: the `W` key. -/
def keyW (k : Keys) (s : State) : State :=
  if k.w then
    if s.paddleOffsets0.y < (s.scrHeight : ℚ) - paddleBoundary then
      { s with paddleVelocities0 := paddleSpeed }
    else
      { s with paddleOffsets0 := ⟨s.paddleOffsets0.x, (s.scrHeight : ℚ) - paddleBoundary⟩ }
  else s

/-- Lines 276-283: the `S` key. -/
def keyS (k : Keys) (s : State) : State :=
  if k.s then
    if s.paddleOffsets0.y > paddleBoundary then
      { s with paddleVelocities0 := -paddleSpeed }
    else
      { s with paddleOffsets0 := ⟨s.paddleOffsets0.x, paddleBoundary⟩ }
  else s

/-- Lines 285-292: the `UP` key. -/
def keyUp (k : Keys) (s : State) : State :=
  if k.up then
    if s.paddleOffsets1.y < (s.scrHeight : ℚ) - paddleBoundary then
      { s with paddleVelocities1 := paddleSpeed }
    else
      { s with paddleOffsets1 := ⟨s.paddleOffsets1.x, (s.scrHeight : ℚ) - paddleBoundary⟩ }
  else s

/-- Lines 293-300: the `DOWN` key. -/
def keyDown (k : Keys) (s : State) : State :=
  if k.down then
    if s.paddleOffsets1.y > paddleBoundary then
      { s with paddleVelocities1 := -paddleSpeed }
    else
      { s with paddleOffsets1 := ⟨s.paddleOffsets1.x, paddleBoundary⟩ }
  else s

/-- Lines 302-309: the edge-triggered pause toggle. -/
def keyP (k : Keys) (s : State) : State :=
  if k.p = false then
    { s with pauseKeyDown := false }
  else if k.p = true ∧ s.pauseKeyDown = false then
    { s with
      isPaused := !s.isPaused
      gameSpeed := if (!s.isPaused) = true then 0 else 1
      pauseKeyDown := true }
  else s

/-- The function `processInput`: both paddle velocities are zeroed, then the five keys are
handled in the order of the source. -/
def processInput (k : Keys) (s : State) : State :=
  keyP k (keyDown k (keyUp k (keyS k (keyW k
    { s with paddleVelocities0 := 0, paddleVelocities1 := 0 }))))

/-! ## The body of the main loop (lines 440-520) -/

/-- Lines 440-442: the collision counter advances unless it holds the sentinel. -/
def cooldownAdvance (s : State) : State :=
  if s.framesSinceLastCollision ≠ unsetFrames then
    { s with framesSinceLastCollision := (s.framesSinceLastCollision + 1) % uintSize }
  else s

/-- The condition of line 444: the ball touches the bottom or the top of the screen. -/
def atWall (s : State) : Bool :=
  decide (s.ballOffset.y - ballRadius ≤ 0) || decide (s.ballOffset.y + ballRadius ≥ (s.scrHeight : ℚ))

/-- Lines 444-446: wall bounce. -/
def wallBounce (s : State) : State :=
  if atWall s = true then
    { s with ballVelocity := ⟨s.ballVelocity.x, s.ballVelocity.y * -1⟩ }
  else s

/-- The value of the local `reset` after lines 448-456: `1` when the ball left on the left,
`2` when it left on the right, `0` otherwise. -/
def resetFlag (s : State) : Nat :=
  if s.ballOffset.x - ballRadius ≤ 0 then 1
  else if s.ballOffset.x + ballRadius ≥ (s.scrWidth : ℚ) then 2
  else 0

/-- Lines 448-456: the score counters. -/
def scoring (s : State) : State :=
  if s.ballOffset.x - ballRadius ≤ 0 then
    { s with rightScore := (s.rightScore + 1) % uintSize }
  else if s.ballOffset.x + ballRadius ≥ (s.scrWidth : ℚ) then
    { s with leftScore := (s.leftScore + 1) % uintSize }
  else s

/-- Lines 458-466: the reset of the ball, for a given value of `reset`. -/
def resetBall (reset : Nat) (s : State) : State :=
  if reset ≠ 0 then
    { s with
      ballOffset := ⟨(s.scrWidth : ℚ) / 2, (s.scrHeight : ℚ) / 2⟩
      ballVelocity :=
        ⟨if reset = 1 then s.initBallVelocity.x else -s.initBallVelocity.x,
         s.initBallVelocity.y⟩ }
  else s

/-- Lines 448-466 together: scoring followed by the reset it may have requested. -/
def scoreAndReset (s : State) : State :=
  resetBall (resetFlag s) (scoring s)

/-- The condition of line 468: the paddle check runs. -/
def checkRuns (s : State) : Bool :=
  decide (s.framesSinceLastCollision ≥ framesThreshold) ||
    decide (s.framesSinceLastCollision = unsetFrames)

/-- Lines 469-472: the index `i` of the paddle that is tested. -/
def candidate (s : State) : Nat :=
  if s.ballOffset.x > (s.scrHeight : ℚ) / 2 then 1 else 0

/-- Line 474: the componentwise distance between the ball and the tested paddle. -/
def distance (s : State) : vec2 :=
  ⟨|s.ballOffset.x - (paddleOffsets s (candidate s)).x|,
   |s.ballOffset.y - (paddleOffsets s (candidate s)).y|⟩

/-- Lines 476-477: the broad phase. -/
def broadPhase (s : State) : Bool :=
  decide ((distance s).x ≤ halfPaddleWidth + ballRadius) &&
    decide ((distance s).y ≤ halfPaddleHeight + ballRadius)

/-- Line 479: the side-face test. -/
def sideFaceHit (s : State) : Bool :=
  decide ((distance s).x ≤ halfPaddleWidth) &&
    decide ((distance s).x ≥ halfPaddleWidth - ballRadius)

/-- Line 483: the top/bottom-face test, reached only when the side-face test failed. -/
def vertFaceHit (s : State) : Bool :=
  !sideFaceHit s &&
    (decide ((distance s).y ≤ halfPaddleHeight) &&
      decide ((distance s).y ≥ halfPaddleHeight - ballRadius))

/-- The local `collision` after lines 478-486. -/
def faceCollision (s : State) : Bool :=
  sideFaceHit s || vertFaceHit s

/-- Lines 488-491: the corner test, which requires `!collision`. -/
def cornerHit (s : State) : Bool :=
  decide (((distance s).x - halfPaddleWidth) * ((distance s).x - halfPaddleWidth) +
      ((distance s).y - halfPaddleHeight) * ((distance s).y - halfPaddleHeight)
      ≤ ballRadius * ballRadius) &&
    !faceCollision s

/-- Lines 493-496: the horizontal offset from the paddle to the ball, negated for paddle 0. -/
def signedDifference (s : State) : ℚ :=
  if candidate s = 0 then
    ((paddleOffsets s (candidate s)).x - s.ballOffset.x) * -1
  else
    (paddleOffsets s (candidate s)).x - s.ballOffset.x

/-- The ball velocity after lines 479-486. -/
def faceVelocity (s : State) : vec2 :=
  if sideFaceHit s = true then ⟨s.ballVelocity.x * -1, s.ballVelocity.y⟩
  else if vertFaceHit s = true then ⟨s.ballVelocity.x, s.ballVelocity.y * -1⟩
  else s.ballVelocity

/-- The ball velocity after lines 488-504. -/
def cornerVelocity (s : State) : vec2 :=
  if cornerHit s = true then
    if (distance s).y - halfPaddleHeight ≤ signedDifference s - halfPaddleWidth then
      ⟨(faceVelocity s).x * -1, (faceVelocity s).y⟩
    else
      ⟨(faceVelocity s).x, (faceVelocity s).y * -1⟩
  else faceVelocity s

/-- The local `collision` at line 506, inside the broad phase. -/
def collisionFlag (s : State) : Bool :=
  faceCollision s || cornerHit s

/-- A paddle collision is resolved by lines 468-514 run on `s`: the check runs, the broad
phase passes and `collision` is set. -/
def collisionResolved (s : State) : Bool :=
  checkRuns s && broadPhase s && collisionFlag s

/-- Lines 468-514: the guarded paddle check with its response. -/
def paddleCollision (s : State) : State :=
  if checkRuns s = true then
    if broadPhase s = true then
      if collisionFlag s = true then
        { s with
          ballVelocity :=
            ⟨(cornerVelocity s).x * (11 / 10),
             (cornerVelocity s).y + (1 / 2) * paddleVelocities s (candidate s)⟩
          framesSinceLastCollision := 0 }
      else { s with ballVelocity := cornerVelocity s }
    else s
  else s

/-- Lines 516-520: the integration of the paddle and ball positions. -/
def integrate (dt : ℚ) (s : State) : State :=
  { s with
    paddleOffsets0 := ⟨s.paddleOffsets0.x, s.paddleOffsets0.y + s.paddleVelocities0 * dt * s.gameSpeed⟩
    paddleOffsets1 := ⟨s.paddleOffsets1.x, s.paddleOffsets1.y + s.paddleVelocities1 * dt * s.gameSpeed⟩
    ballOffset :=
      ⟨s.ballOffset.x + s.ballVelocity.x * dt * s.gameSpeed,
       s.ballOffset.y + s.ballVelocity.y * dt * s.gameSpeed⟩ }

/-- The state that enters the paddle check: lines 440-466 run on `s`. -/
def preCollision (s : State) : State :=
  scoreAndReset (wallBounce (cooldownAdvance s))

/-- One simulation step: lines 440-520, in the order of the source. -/
def step (dt : ℚ) (s : State) : State :=
  integrate dt (paddleCollision (preCollision s))

/-! ## Whole frames -/

/-- What one loop iteration receives from outside: the keys polled by `processInput`, the
elapsed time, and the resize (if any) delivered by `glfwPollEvents` in `newFrame`. -/
structure FrameInput where
  keys : Keys
  dt : ℚ
  resize : Option (Nat × Nat)
deriving DecidableEq

/-- The resize callback as delivered at the end of a frame. -/
def applyResize (r : Option (Nat × Nat)) (s : State) : State :=
  match r with
  | none => s
  | some (w, h) => framebufferSizeCallback w h s

/-- One iteration of the `while` loop of `main` (lines 435-531). -/
def frame (inp : FrameInput) (s : State) : State :=
  applyResize inp.resize (step inp.dt (processInput inp.keys s))

/-- Consecutive iterations of the loop, the head of the list first. -/
def runFrames : List FrameInput → State → State
  | [], s => s
  | inp :: rest, s => runFrames rest (frame inp s)

/-- The states the program can be in at the top of a loop iteration. -/
inductive Reachable : State → Prop
  | init : Reachable initState
  | frame (inp : FrameInput) (s : State) : Reachable s → Reachable (frame inp s)

/-! ## Concrete states and auxiliary predicates used by the statements below -/

/-- The initial 800 x 600 layout with the ball moving left, 5 units from the left edge. -/
def leftExitState : State :=
  { initState with ballOffset := ⟨5, 300⟩, ballVelocity := ⟨-150, 150⟩ }

/-- The state `leftExitState` after the window was resized to 10 x 600: the ball now
overlaps the left and the right edge at once. -/
def bothEdgesState : State :=
  framebufferSizeCallback 10 600 leftExitState

/-- The initial layout with the ball moving down and left in the bottom-left corner. -/
def cornerState : State :=
  { initState with ballOffset := ⟨5, 5⟩, ballVelocity := ⟨-150, -150⟩ }

/-- The initial layout with the ball moving down at the bottom wall, mid-screen. -/
def bottomWallState : State :=
  { initState with ballOffset := ⟨400, 5⟩, ballVelocity := ⟨150, -150⟩ }

/-- The initial layout with the ball moving right, 5 units from the right edge. -/
def rightExitState : State :=
  { initState with ballOffset := ⟨795, 300⟩ }

/-- The initial layout with the ball at `(350, 300)`, in the left half of the screen. -/
def midfieldState : State :=
  { initState with ballOffset := ⟨350, 300⟩ }

/-- The 800 x 600 layout resized to 200 x 600, with the ball at `(160, 300)`: it overlaps
the right paddle, which the resize put at `x = 165`. -/
def narrowScreenState : State :=
  framebufferSizeCallback 200 600 { initState with ballOffset := ⟨160, 300⟩ }

/-- The state on which the paddle check of a frame runs: `processInput`, then lines
440-466. -/
def atPaddleCheck (inp : FrameInput) (s : State) : State :=
  preCollision (processInput inp.keys s)

/-- The invariant behind the strict increase: neither the serve velocity nor the current
velocity has a zero horizontal component. -/
def movesHorizontally (s : State) : Prop :=
  s.initBallVelocity.x ≠ 0 ∧ s.ballVelocity.x ≠ 0

/-- No key is pressed. -/
def idleKeys : Keys := ⟨false, false, false, false, false⟩

/-- A frame of 1/64 s with no key pressed and no resize. -/
def idle : FrameInput := ⟨idleKeys, 1 / 64, none⟩

/-- The state after a first frame of 1/64 s at the end of which the window was resized to
440 x 600: the right paddle is at `x = 405` and the ball, at `(402.34375, 302.34375)`,
overlaps it. -/
def resizedStartState : State :=
  frame ⟨idleKeys, 1 / 64, some (440, 600)⟩ initState

/-- The state `leftExitState` after the window was resized to 70 x 600: the centre of the
screen, `(35, 300)`, is the centre of the left paddle. -/
def centreHitState : State :=
  framebufferSizeCallback 70 600 leftExitState

/-- The initial layout with the left paddle at the bottom of its range, `(35, 58)`, and the
ball at `(45, 8)`: it touches the bottom wall and the bottom edge region of the paddle. -/
def wallAndPaddleState : State :=
  { initState with
    paddleOffsets0 := ⟨35, 58⟩
    ballOffset := ⟨45, 8⟩
    ballVelocity := ⟨-150, -150⟩ }

/-- A frame of 1/1024 s with no key pressed and no resize. -/
def quick : FrameInput := ⟨idleKeys, 1 / 1024, none⟩

/-! ## Frame conditions of the stages -/

theorem paddleCollision_of_checkRuns_false (s : State) (h : checkRuns s = false) :
    paddleCollision s = s := by
  simp [paddleCollision, h]

theorem cornerVelocity_of_collisionFlag_false (s : State) (h : collisionFlag s = false) :
    cornerVelocity s = s.ballVelocity := by
  simp only [collisionFlag, faceCollision, Bool.or_eq_false_iff] at h
  obtain ⟨⟨h1, h2⟩, h3⟩ := h
  simp [cornerVelocity, faceVelocity, h1, h2, h3]

theorem paddleCollision_of_not_resolved (s : State) (h : collisionResolved s = false) :
    paddleCollision s = s := by
  unfold paddleCollision
  by_cases hc : checkRuns s = true
  · by_cases hb : broadPhase s = true
    · have hf : collisionFlag s = false := by
        simpa [collisionResolved, hc, hb] using h
      simp [hc, hb, hf, cornerVelocity_of_collisionFlag_false s hf]
    · simp [hc, hb]
  · simp [hc]

theorem collisionResolved_of_checkRuns_false (s : State) (h : checkRuns s = false) :
    collisionResolved s = false := by
  simp [collisionResolved, h]

theorem paddleCollision_of_resolved (s : State) (h : collisionResolved s = true) :
    paddleCollision s =
      { s with
        ballVelocity :=
          ⟨(cornerVelocity s).x * (11 / 10),
           (cornerVelocity s).y + (1 / 2) * paddleVelocities s (candidate s)⟩
        framesSinceLastCollision := 0 } := by
  simp only [collisionResolved, Bool.and_eq_true] at h
  obtain ⟨⟨hc, hb⟩, hf⟩ := h
  simp [paddleCollision, hc, hb, hf]

/-- The cooldown advance touches nothing but the counter. -/
theorem cooldownAdvance_fields (s : State) :
    (cooldownAdvance s).scrWidth = s.scrWidth ∧
    (cooldownAdvance s).scrHeight = s.scrHeight ∧
    (cooldownAdvance s).paddleOffsets0 = s.paddleOffsets0 ∧
    (cooldownAdvance s).paddleOffsets1 = s.paddleOffsets1 ∧
    (cooldownAdvance s).ballOffset = s.ballOffset ∧
    (cooldownAdvance s).paddleVelocities0 = s.paddleVelocities0 ∧
    (cooldownAdvance s).paddleVelocities1 = s.paddleVelocities1 ∧
    (cooldownAdvance s).initBallVelocity = s.initBallVelocity ∧
    (cooldownAdvance s).ballVelocity = s.ballVelocity ∧
    (cooldownAdvance s).leftScore = s.leftScore ∧
    (cooldownAdvance s).rightScore = s.rightScore ∧
    (cooldownAdvance s).gameSpeed = s.gameSpeed := by
  unfold cooldownAdvance
  split <;> simp

/-- The wall bounce touches nothing but the ball velocity. -/
theorem wallBounce_fields (s : State) :
    (wallBounce s).scrWidth = s.scrWidth ∧
    (wallBounce s).scrHeight = s.scrHeight ∧
    (wallBounce s).paddleOffsets0 = s.paddleOffsets0 ∧
    (wallBounce s).paddleOffsets1 = s.paddleOffsets1 ∧
    (wallBounce s).ballOffset = s.ballOffset ∧
    (wallBounce s).paddleVelocities0 = s.paddleVelocities0 ∧
    (wallBounce s).paddleVelocities1 = s.paddleVelocities1 ∧
    (wallBounce s).initBallVelocity = s.initBallVelocity ∧
    (wallBounce s).leftScore = s.leftScore ∧
    (wallBounce s).rightScore = s.rightScore ∧
    (wallBounce s).gameSpeed = s.gameSpeed ∧
    (wallBounce s).framesSinceLastCollision = s.framesSinceLastCollision := by
  unfold wallBounce
  split <;> simp

/-- The score update touches nothing but the two counters. -/
theorem scoring_fields (s : State) :
    (scoring s).scrWidth = s.scrWidth ∧
    (scoring s).scrHeight = s.scrHeight ∧
    (scoring s).paddleOffsets0 = s.paddleOffsets0 ∧
    (scoring s).paddleOffsets1 = s.paddleOffsets1 ∧
    (scoring s).ballOffset = s.ballOffset ∧
    (scoring s).paddleVelocities0 = s.paddleVelocities0 ∧
    (scoring s).paddleVelocities1 = s.paddleVelocities1 ∧
    (scoring s).initBallVelocity = s.initBallVelocity ∧
    (scoring s).ballVelocity = s.ballVelocity ∧
    (scoring s).gameSpeed = s.gameSpeed ∧
    (scoring s).framesSinceLastCollision = s.framesSinceLastCollision := by
  unfold scoring
  split_ifs <;> simp

/-- The reset touches nothing but the ball. -/
theorem resetBall_fields (r : Nat) (s : State) :
    (resetBall r s).scrWidth = s.scrWidth ∧
    (resetBall r s).scrHeight = s.scrHeight ∧
    (resetBall r s).paddleOffsets0 = s.paddleOffsets0 ∧
    (resetBall r s).paddleOffsets1 = s.paddleOffsets1 ∧
    (resetBall r s).paddleVelocities0 = s.paddleVelocities0 ∧
    (resetBall r s).paddleVelocities1 = s.paddleVelocities1 ∧
    (resetBall r s).initBallVelocity = s.initBallVelocity ∧
    (resetBall r s).leftScore = s.leftScore ∧
    (resetBall r s).rightScore = s.rightScore ∧
    (resetBall r s).gameSpeed = s.gameSpeed ∧
    (resetBall r s).framesSinceLastCollision = s.framesSinceLastCollision := by
  unfold resetBall
  split <;> simp

/-- The paddle check touches nothing but the ball velocity and the counter. -/
theorem paddleCollision_fields (s : State) :
    (paddleCollision s).scrWidth = s.scrWidth ∧
    (paddleCollision s).scrHeight = s.scrHeight ∧
    (paddleCollision s).paddleOffsets0 = s.paddleOffsets0 ∧
    (paddleCollision s).paddleOffsets1 = s.paddleOffsets1 ∧
    (paddleCollision s).ballOffset = s.ballOffset ∧
    (paddleCollision s).paddleVelocities0 = s.paddleVelocities0 ∧
    (paddleCollision s).paddleVelocities1 = s.paddleVelocities1 ∧
    (paddleCollision s).initBallVelocity = s.initBallVelocity ∧
    (paddleCollision s).leftScore = s.leftScore ∧
    (paddleCollision s).rightScore = s.rightScore ∧
    (paddleCollision s).gameSpeed = s.gameSpeed := by
  unfold paddleCollision
  split_ifs <;> simp

/-- The integration touches nothing but the three positions. -/
theorem integrate_fields (dt : ℚ) (s : State) :
    (integrate dt s).scrWidth = s.scrWidth ∧
    (integrate dt s).scrHeight = s.scrHeight ∧
    (integrate dt s).paddleVelocities0 = s.paddleVelocities0 ∧
    (integrate dt s).paddleVelocities1 = s.paddleVelocities1 ∧
    (integrate dt s).initBallVelocity = s.initBallVelocity ∧
    (integrate dt s).ballVelocity = s.ballVelocity ∧
    (integrate dt s).leftScore = s.leftScore ∧
    (integrate dt s).rightScore = s.rightScore ∧
    (integrate dt s).gameSpeed = s.gameSpeed ∧
    (integrate dt s).framesSinceLastCollision = s.framesSinceLastCollision := by
  simp [integrate]

/-- The scoring test only reads the ball position and the screen width. -/
theorem resetFlag_congr (s t : State) (hb : t.ballOffset = s.ballOffset)
    (hw : t.scrWidth = s.scrWidth) : resetFlag t = resetFlag s := by
  simp [resetFlag, hb, hw]

/-- The state entering the paddle check, with the scoring test read off the initial state. -/
theorem preCollision_eq (s : State) :
    preCollision s =
      resetBall (resetFlag s) (scoring (wallBounce (cooldownAdvance s))) := by
  unfold preCollision scoreAndReset
  rw [resetFlag_congr s (wallBounce (cooldownAdvance s))]
  · simp [wallBounce_fields, cooldownAdvance_fields]
  · simp [wallBounce_fields, cooldownAdvance_fields]

theorem preCollision_fields (s : State) :
    (preCollision s).scrWidth = s.scrWidth ∧
    (preCollision s).scrHeight = s.scrHeight ∧
    (preCollision s).paddleOffsets0 = s.paddleOffsets0 ∧
    (preCollision s).paddleOffsets1 = s.paddleOffsets1 ∧
    (preCollision s).paddleVelocities0 = s.paddleVelocities0 ∧
    (preCollision s).paddleVelocities1 = s.paddleVelocities1 ∧
    (preCollision s).initBallVelocity = s.initBallVelocity ∧
    (preCollision s).gameSpeed = s.gameSpeed ∧
    (preCollision s).framesSinceLastCollision = (cooldownAdvance s).framesSinceLastCollision := by
  simp [preCollision_eq, resetBall_fields, scoring_fields, wallBounce_fields,
    cooldownAdvance_fields]

/-! ## Scoring and reset -/

theorem scoring_left (t : State) (h : t.ballOffset.x - ballRadius ≤ 0) :
    scoring t = { t with rightScore := (t.rightScore + 1) % uintSize } := by
  unfold scoring
  rw [if_pos h]

theorem scoring_right (t : State) (h1 : ¬ t.ballOffset.x - ballRadius ≤ 0)
    (h2 : t.ballOffset.x + ballRadius ≥ (t.scrWidth : ℚ)) :
    scoring t = { t with leftScore := (t.leftScore + 1) % uintSize } := by
  unfold scoring
  rw [if_neg h1, if_pos h2]

theorem scoring_inside (t : State) (h1 : ¬ t.ballOffset.x - ballRadius ≤ 0)
    (h2 : ¬ t.ballOffset.x + ballRadius ≥ (t.scrWidth : ℚ)) :
    scoring t = t := by
  unfold scoring
  rw [if_neg h1, if_neg h2]

/-- What lines 440-466 do when the ball has left on the left. -/
theorem preCollision_left (s : State) (h : s.ballOffset.x - ballRadius ≤ 0) :
    (preCollision s).rightScore = (s.rightScore + 1) % uintSize ∧
    (preCollision s).leftScore = s.leftScore ∧
    (preCollision s).ballOffset = ⟨(s.scrWidth : ℚ) / 2, (s.scrHeight : ℚ) / 2⟩ ∧
    (preCollision s).ballVelocity = ⟨s.initBallVelocity.x, s.initBallVelocity.y⟩ := by
  have hf : resetFlag s = 1 := by simp [resetFlag, h]
  have hb : (wallBounce (cooldownAdvance s)).ballOffset.x - ballRadius ≤ 0 := by
    simpa [wallBounce_fields, cooldownAdvance_fields] using h
  rw [preCollision_eq, hf]
  rw [scoring_left _ hb]
  simp [resetBall, wallBounce_fields, cooldownAdvance_fields]

/-- What lines 440-466 do when the ball has left on the right and not on the left. -/
theorem preCollision_right (s : State) (h1 : 0 < s.ballOffset.x - ballRadius)
    (h2 : s.ballOffset.x + ballRadius ≥ (s.scrWidth : ℚ)) :
    (preCollision s).leftScore = (s.leftScore + 1) % uintSize ∧
    (preCollision s).rightScore = s.rightScore ∧
    (preCollision s).ballOffset = ⟨(s.scrWidth : ℚ) / 2, (s.scrHeight : ℚ) / 2⟩ ∧
    (preCollision s).ballVelocity = ⟨-s.initBallVelocity.x, s.initBallVelocity.y⟩ := by
  have hf : resetFlag s = 2 := by simp [resetFlag, not_le.mpr h1, h2]
  have hb1 : ¬ (wallBounce (cooldownAdvance s)).ballOffset.x - ballRadius ≤ 0 := by
    simpa [wallBounce_fields, cooldownAdvance_fields] using h1
  have hb2 : (wallBounce (cooldownAdvance s)).ballOffset.x + ballRadius
      ≥ ((wallBounce (cooldownAdvance s)).scrWidth : ℚ) := by
    simpa [wallBounce_fields, cooldownAdvance_fields] using h2
  rw [preCollision_eq, hf, scoring_right _ hb1 hb2]
  simp [resetBall, wallBounce_fields, cooldownAdvance_fields]

/-- What lines 440-466 do when the ball is strictly between the left and right edges. -/
theorem preCollision_inside (s : State) (h1 : 0 < s.ballOffset.x - ballRadius)
    (h2 : s.ballOffset.x + ballRadius < (s.scrWidth : ℚ)) :
    (preCollision s).leftScore = s.leftScore ∧
    (preCollision s).rightScore = s.rightScore ∧
    (preCollision s).ballOffset = s.ballOffset ∧
    (preCollision s).ballVelocity = (wallBounce (cooldownAdvance s)).ballVelocity := by
  have hf : resetFlag s = 0 := by simp [resetFlag, not_le.mpr h1, not_le.mpr h2]
  have hb1 : ¬ (wallBounce (cooldownAdvance s)).ballOffset.x - ballRadius ≤ 0 := by
    simpa [wallBounce_fields, cooldownAdvance_fields] using h1
  have hb2 : ¬ (wallBounce (cooldownAdvance s)).ballOffset.x + ballRadius
      ≥ ((wallBounce (cooldownAdvance s)).scrWidth : ℚ) := by
    simpa [wallBounce_fields, cooldownAdvance_fields] using h2
  rw [preCollision_eq, hf, scoring_inside _ hb1 hb2]
  simp [resetBall, wallBounce_fields, cooldownAdvance_fields]

/-- The velocity after the wall bounce, read off the initial state. -/
theorem wallBounce_cooldownAdvance_ballVelocity (s : State) :
    (wallBounce (cooldownAdvance s)).ballVelocity =
      if atWall s = true then ⟨s.ballVelocity.x, -s.ballVelocity.y⟩ else s.ballVelocity := by
  have ha : atWall (cooldownAdvance s) = atWall s := by
    simp [atWall, cooldownAdvance_fields]
  unfold wallBounce
  rw [ha]
  split <;> simp [cooldownAdvance_fields]

/-- A step leaves the scores as lines 440-466 set them, the velocity as the paddle check
set it, and moves the three positions by the integration alone. -/
theorem step_fields (dt : ℚ) (s : State) :
    (step dt s).leftScore = (preCollision s).leftScore ∧
    (step dt s).rightScore = (preCollision s).rightScore ∧
    (step dt s).ballVelocity = (paddleCollision (preCollision s)).ballVelocity ∧
    (step dt s).framesSinceLastCollision =
      (paddleCollision (preCollision s)).framesSinceLastCollision ∧
    (step dt s).gameSpeed = s.gameSpeed ∧
    (step dt s).scrWidth = s.scrWidth ∧
    (step dt s).scrHeight = s.scrHeight ∧
    (step dt s).initBallVelocity = s.initBallVelocity ∧
    (step dt s).paddleOffsets0 =
      ⟨s.paddleOffsets0.x, s.paddleOffsets0.y + s.paddleVelocities0 * dt * s.gameSpeed⟩ ∧
    (step dt s).paddleOffsets1 =
      ⟨s.paddleOffsets1.x, s.paddleOffsets1.y + s.paddleVelocities1 * dt * s.gameSpeed⟩ ∧
    (step dt s).ballOffset =
      ⟨(preCollision s).ballOffset.x + (step dt s).ballVelocity.x * dt * s.gameSpeed,
       (preCollision s).ballOffset.y + (step dt s).ballVelocity.y * dt * s.gameSpeed⟩ := by
  simp [step, integrate, paddleCollision_fields, preCollision_fields]

/-! ## C1: scoring on the left -/

/-- C1, counterexample: in the initial 800 x 600 layout with the ball at `(5, 300)` (so
`ball.x - ballRadius <= 0`), one step with `dt = 1` ends with the ball at `(550, 450)`, not
at the centre `(400, 300)`: the integration of line 519 runs after the reset. -/
theorem left_exit_ball_not_at_centre :
    leftExitState.ballOffset.x - ballRadius ≤ 0 ∧
    (step 1 leftExitState).ballOffset = ⟨550, 450⟩ ∧
    (step 1 leftExitState).ballOffset ≠
      ⟨(leftExitState.scrWidth : ℚ) / 2, (leftExitState.scrHeight : ℚ) / 2⟩ := by
  have hstep : (step 1 leftExitState).ballOffset = ⟨550, 450⟩ := by
    simp [step, integrate, paddleCollision, preCollision, scoreAndReset, resetBall, resetFlag,
      scoring, wallBounce, cooldownAdvance, atWall, checkRuns, broadPhase, distance, candidate,
      paddleOffsets, leftExitState, initState, ballRadius, ballDiameter, halfPaddleWidth,
      paddleWidth, halfPaddleHeight, paddleHeight, unsetFrames, uintSize, framesThreshold]
    norm_num
  refine ⟨?_, hstep, ?_⟩
  · norm_num [leftExitState, initState, ballRadius, ballDiameter]
  · rw [hstep]
    norm_num [leftExitState, initState]

/-- C1, as the code has it: when `ball.x - ballRadius <= 0`, one step sets `rightScore` to
its successor modulo `2 ^ 32` (its successor proper below the top value), leaves `leftScore`
unchanged, and lines 448-466 put the ball at `(scrWidth/2, scrHeight/2)` with velocity
`(+initBallVelocity.x, +initBallVelocity.y)`.  The step then ends with the ball at the centre
displaced by one integration, `velocity * dt * gameSpeed`, and the velocity is still the
initial one provided the paddle check resolves no collision at the centre. -/
theorem left_exit_step (s : State) (dt : ℚ) (h : s.ballOffset.x - ballRadius ≤ 0) :
    (step dt s).rightScore = (s.rightScore + 1) % uintSize ∧
    (s.rightScore + 1 < uintSize → (step dt s).rightScore = s.rightScore + 1) ∧
    (step dt s).leftScore = s.leftScore ∧
    (preCollision s).ballOffset = ⟨(s.scrWidth : ℚ) / 2, (s.scrHeight : ℚ) / 2⟩ ∧
    (preCollision s).ballVelocity = ⟨s.initBallVelocity.x, s.initBallVelocity.y⟩ ∧
    (step dt s).ballOffset =
      ⟨(s.scrWidth : ℚ) / 2 + (step dt s).ballVelocity.x * dt * s.gameSpeed,
       (s.scrHeight : ℚ) / 2 + (step dt s).ballVelocity.y * dt * s.gameSpeed⟩ ∧
    (collisionResolved (preCollision s) = false →
      (step dt s).ballVelocity = ⟨s.initBallVelocity.x, s.initBallVelocity.y⟩) := by
  obtain ⟨hr, hl, hb, hv⟩ := preCollision_left s h
  refine ⟨?_, ?_, ?_, hb, hv, ?_, ?_⟩
  · rw [(step_fields dt s).2.1, hr]
  · intro hlt
    rw [(step_fields dt s).2.1, hr, Nat.mod_eq_of_lt hlt]
  · rw [(step_fields dt s).1, hl]
  · have := (step_fields dt s).2.2.2.2.2.2.2.2.2.2
    rw [this, hb]
  · intro hnr
    rw [(step_fields dt s).2.2.1, paddleCollision_of_not_resolved _ hnr, hv]

/-- C1, the statement above at the state `leftExitState` with `dt = 1`, where no
collision is resolved at the centre. -/
theorem left_exit_step_witness :
    (leftExitState.ballOffset.x - ballRadius ≤ 0 ∧
      collisionResolved (preCollision leftExitState) = false) ∧
    ((step 1 leftExitState).rightScore = (leftExitState.rightScore + 1) % uintSize ∧
    (leftExitState.rightScore + 1 < uintSize →
      (step 1 leftExitState).rightScore = leftExitState.rightScore + 1) ∧
    (step 1 leftExitState).leftScore = leftExitState.leftScore ∧
    (preCollision leftExitState).ballOffset =
      ⟨(leftExitState.scrWidth : ℚ) / 2, (leftExitState.scrHeight : ℚ) / 2⟩ ∧
    (preCollision leftExitState).ballVelocity =
      ⟨leftExitState.initBallVelocity.x, leftExitState.initBallVelocity.y⟩ ∧
    (step 1 leftExitState).ballOffset =
      ⟨(leftExitState.scrWidth : ℚ) / 2 +
          (step 1 leftExitState).ballVelocity.x * 1 * leftExitState.gameSpeed,
       (leftExitState.scrHeight : ℚ) / 2 +
          (step 1 leftExitState).ballVelocity.y * 1 * leftExitState.gameSpeed⟩ ∧
    (collisionResolved (preCollision leftExitState) = false →
      (step 1 leftExitState).ballVelocity =
        ⟨leftExitState.initBallVelocity.x, leftExitState.initBallVelocity.y⟩)) := by
  have hnr : collisionResolved (preCollision leftExitState) = false := by
    simp [collisionResolved, paddleCollision, preCollision, scoreAndReset, resetBall, resetFlag,
      scoring, wallBounce, cooldownAdvance, atWall, checkRuns, broadPhase, distance, candidate,
      paddleOffsets, leftExitState, initState, ballRadius, ballDiameter, halfPaddleWidth,
      paddleWidth, halfPaddleHeight, paddleHeight, unsetFrames, uintSize, framesThreshold]
    norm_num
  exact
    ⟨⟨by norm_num [leftExitState, initState, ballRadius, ballDiameter], hnr⟩,
     left_exit_step leftExitState 1
       (by norm_num [leftExitState, initState, ballRadius, ballDiameter])⟩

/-! ## C2: scoring on the right -/

/-- C2, counterexample: after a resize to 10 x 600 the ball at `(5, 300)` satisfies
`ball.x + ballRadius >= scrWidth` and also `ball.x - ballRadius <= 0`; the left test of
line 449 is made first, so the step increments `rightScore`, leaves `leftScore` at 0 and
serves the ball with velocity `(+150, +150)`. -/
theorem right_exit_left_priority :
    bothEdgesState.ballOffset.x + ballRadius ≥ (bothEdgesState.scrWidth : ℚ) ∧
    (step 1 bothEdgesState).leftScore = bothEdgesState.leftScore ∧
    (step 1 bothEdgesState).leftScore ≠ bothEdgesState.leftScore + 1 ∧
    (step 1 bothEdgesState).rightScore = bothEdgesState.rightScore + 1 ∧
    (step 1 bothEdgesState).ballVelocity = ⟨150, 150⟩ ∧
    (step 1 bothEdgesState).ballVelocity ≠
      ⟨-bothEdgesState.initBallVelocity.x, bothEdgesState.initBallVelocity.y⟩ := by
  have hl : (step 1 bothEdgesState).leftScore = bothEdgesState.leftScore := by
    simp [step, integrate, paddleCollision, preCollision, scoreAndReset, resetBall, resetFlag,
      scoring, wallBounce, cooldownAdvance, atWall, checkRuns, broadPhase, distance, candidate,
      paddleOffsets, bothEdgesState, framebufferSizeCallback, leftExitState, initState,
      ballRadius, ballDiameter, halfPaddleWidth, paddleWidth, halfPaddleHeight, paddleHeight,
      unsetFrames, uintSize, framesThreshold]
    norm_num
  have hr : (step 1 bothEdgesState).rightScore = bothEdgesState.rightScore + 1 := by
    simp [step, integrate, paddleCollision, preCollision, scoreAndReset, resetBall, resetFlag,
      scoring, wallBounce, cooldownAdvance, atWall, checkRuns, broadPhase, distance, candidate,
      paddleOffsets, bothEdgesState, framebufferSizeCallback, leftExitState, initState,
      ballRadius, ballDiameter, halfPaddleWidth, paddleWidth, halfPaddleHeight, paddleHeight,
      unsetFrames, uintSize, framesThreshold]
    norm_num
  have hv : (step 1 bothEdgesState).ballVelocity = ⟨150, 150⟩ := by
    simp [step, integrate, paddleCollision, preCollision, scoreAndReset, resetBall, resetFlag,
      scoring, wallBounce, cooldownAdvance, atWall, checkRuns, broadPhase, distance, candidate,
      paddleOffsets, bothEdgesState, framebufferSizeCallback, leftExitState, initState,
      ballRadius, ballDiameter, halfPaddleWidth, paddleWidth, halfPaddleHeight, paddleHeight,
      unsetFrames, uintSize, framesThreshold]
    norm_num
  refine ⟨?_, hl, ?_, hr, hv, ?_⟩
  · norm_num [bothEdgesState, framebufferSizeCallback, leftExitState, initState, ballRadius,
      ballDiameter]
  · rw [hl]
    exact Nat.ne_of_lt (Nat.lt_succ_self _)
  · rw [hv]
    norm_num [bothEdgesState, framebufferSizeCallback, leftExitState, initState]

/-- C2, as the code has it: when `ball.x + ballRadius >= scrWidth` and the left test of
line 449 fails (`0 < ball.x - ballRadius`), one step sets `leftScore` to its successor
modulo `2 ^ 32` (its successor proper below the top value), leaves `rightScore` unchanged,
and lines 448-466 set the velocity to `(-initBallVelocity.x, +initBallVelocity.y)`; this is
the velocity at the end of the step provided the paddle check resolves no collision at the
centre. -/
theorem right_exit_step (s : State) (dt : ℚ) (h1 : 0 < s.ballOffset.x - ballRadius)
    (h2 : s.ballOffset.x + ballRadius ≥ (s.scrWidth : ℚ)) :
    (step dt s).leftScore = (s.leftScore + 1) % uintSize ∧
    (s.leftScore + 1 < uintSize → (step dt s).leftScore = s.leftScore + 1) ∧
    (step dt s).rightScore = s.rightScore ∧
    (preCollision s).ballVelocity = ⟨-s.initBallVelocity.x, s.initBallVelocity.y⟩ ∧
    (collisionResolved (preCollision s) = false →
      (step dt s).ballVelocity = ⟨-s.initBallVelocity.x, s.initBallVelocity.y⟩) := by
  obtain ⟨hl, hr, _, hv⟩ := preCollision_right s h1 h2
  refine ⟨?_, ?_, ?_, hv, ?_⟩
  · rw [(step_fields dt s).1, hl]
  · intro hlt
    rw [(step_fields dt s).1, hl, Nat.mod_eq_of_lt hlt]
  · rw [(step_fields dt s).2.1, hr]
  · intro hnr
    rw [(step_fields dt s).2.2.1, paddleCollision_of_not_resolved _ hnr, hv]

/-- C2, the statement above at the state `rightExitState` with `dt = 1`, where no
collision is resolved at the centre. -/
theorem right_exit_step_witness :
    (0 < rightExitState.ballOffset.x - ballRadius ∧
      rightExitState.ballOffset.x + ballRadius ≥ (rightExitState.scrWidth : ℚ) ∧
      collisionResolved (preCollision rightExitState) = false) ∧
    ((step 1 rightExitState).leftScore = (rightExitState.leftScore + 1) % uintSize ∧
    (rightExitState.leftScore + 1 < uintSize →
      (step 1 rightExitState).leftScore = rightExitState.leftScore + 1) ∧
    (step 1 rightExitState).rightScore = rightExitState.rightScore ∧
    (preCollision rightExitState).ballVelocity =
      ⟨-rightExitState.initBallVelocity.x, rightExitState.initBallVelocity.y⟩ ∧
    (collisionResolved (preCollision rightExitState) = false →
      (step 1 rightExitState).ballVelocity =
        ⟨-rightExitState.initBallVelocity.x, rightExitState.initBallVelocity.y⟩)) := by
  have hnr : collisionResolved (preCollision rightExitState) = false := by
    simp [collisionResolved, paddleCollision, preCollision, scoreAndReset, resetBall, resetFlag,
      scoring, wallBounce, cooldownAdvance, atWall, checkRuns, broadPhase, distance, candidate,
      paddleOffsets, rightExitState, initState, ballRadius, ballDiameter, halfPaddleWidth,
      paddleWidth, halfPaddleHeight, paddleHeight, unsetFrames, uintSize, framesThreshold]
    norm_num
  exact
    ⟨⟨by norm_num [rightExitState, initState, ballRadius, ballDiameter],
      by norm_num [rightExitState, initState, ballRadius, ballDiameter], hnr⟩,
     right_exit_step rightExitState 1
       (by norm_num [rightExitState, initState, ballRadius, ballDiameter])
       (by norm_num [rightExitState, initState, ballRadius, ballDiameter])⟩

/-! ## C3: wall bounce -/

/-- C3, counterexample: with the ball at `(5, 5)` (so `ball.y - ballRadius <= 0`) and
velocity `(-150, -150)`, the step also scores on the left and the reset of lines 462-463
overwrites the velocity with `(150, 150)`: `velocity.x` is not left unchanged. -/
theorem wall_bounce_overwritten_by_reset :
    (cornerState.ballOffset.y - ballRadius ≤ 0 ∨
      cornerState.ballOffset.y + ballRadius ≥ (cornerState.scrHeight : ℚ)) ∧
    (step 1 cornerState).ballVelocity = ⟨150, 150⟩ ∧
    (step 1 cornerState).ballVelocity.x ≠ cornerState.ballVelocity.x := by
  have hv : (step 1 cornerState).ballVelocity = ⟨150, 150⟩ := by
    simp [step, integrate, paddleCollision, preCollision, scoreAndReset, resetBall, resetFlag,
      scoring, wallBounce, cooldownAdvance, atWall, checkRuns, broadPhase, distance, candidate,
      paddleOffsets, cornerState, initState, ballRadius, ballDiameter, halfPaddleWidth,
      paddleWidth, halfPaddleHeight, paddleHeight, unsetFrames, uintSize, framesThreshold]
    norm_num
  refine ⟨?_, hv, ?_⟩
  · left
    norm_num [cornerState, initState, ballRadius, ballDiameter]
  · rw [hv]
    norm_num [cornerState, initState]

/-- C3, as the code has it: when the ball touches the bottom or the top of the screen, the
wall bounce of lines 444-446 negates `velocity.y` and leaves `velocity.x` unchanged; this is
the velocity at the end of the step provided the ball is strictly between the left and the
right edge (no score, no reset) and the paddle check resolves no collision. -/
theorem wall_bounce_step (s : State) (dt : ℚ)
    (h : s.ballOffset.y - ballRadius ≤ 0 ∨ s.ballOffset.y + ballRadius ≥ (s.scrHeight : ℚ)) :
    (wallBounce (cooldownAdvance s)).ballVelocity = ⟨s.ballVelocity.x, -s.ballVelocity.y⟩ ∧
    (0 < s.ballOffset.x - ballRadius → s.ballOffset.x + ballRadius < (s.scrWidth : ℚ) →
      collisionResolved (preCollision s) = false →
      (step dt s).ballVelocity.y = -s.ballVelocity.y ∧
      (step dt s).ballVelocity.x = s.ballVelocity.x) := by
  have ha : atWall s = true := by
    simpa [atWall] using h
  have hw : (wallBounce (cooldownAdvance s)).ballVelocity =
      ⟨s.ballVelocity.x, -s.ballVelocity.y⟩ := by
    rw [wallBounce_cooldownAdvance_ballVelocity, if_pos ha]
  refine ⟨hw, ?_⟩
  intro h1 h2 hnr
  have hv := (preCollision_inside s h1 h2).2.2.2
  rw [(step_fields dt s).2.2.1, paddleCollision_of_not_resolved _ hnr, hv, hw]
  exact ⟨rfl, rfl⟩

/-- C3, the statement above at the state `bottomWallState` with `dt = 1`, where the ball
is between the left and right edges and no collision is resolved. -/
theorem wall_bounce_step_witness :
    ((bottomWallState.ballOffset.y - ballRadius ≤ 0 ∨
      bottomWallState.ballOffset.y + ballRadius ≥ (bottomWallState.scrHeight : ℚ)) ∧
      0 < bottomWallState.ballOffset.x - ballRadius ∧
      bottomWallState.ballOffset.x + ballRadius < (bottomWallState.scrWidth : ℚ) ∧
      collisionResolved (preCollision bottomWallState) = false) ∧
    ((wallBounce (cooldownAdvance bottomWallState)).ballVelocity =
      ⟨bottomWallState.ballVelocity.x, -bottomWallState.ballVelocity.y⟩ ∧
    (0 < bottomWallState.ballOffset.x - ballRadius →
      bottomWallState.ballOffset.x + ballRadius < (bottomWallState.scrWidth : ℚ) →
      collisionResolved (preCollision bottomWallState) = false →
      (step 1 bottomWallState).ballVelocity.y = -bottomWallState.ballVelocity.y ∧
      (step 1 bottomWallState).ballVelocity.x = bottomWallState.ballVelocity.x)) := by
  have hnr : collisionResolved (preCollision bottomWallState) = false := by
    simp [collisionResolved, paddleCollision, preCollision, scoreAndReset, resetBall, resetFlag,
      scoring, wallBounce, cooldownAdvance, atWall, checkRuns, broadPhase, distance, candidate,
      paddleOffsets, bottomWallState, initState, ballRadius, ballDiameter, halfPaddleWidth,
      paddleWidth, halfPaddleHeight, paddleHeight, unsetFrames, uintSize, framesThreshold]
    norm_num
  exact
    ⟨⟨Or.inl (by norm_num [bottomWallState, initState, ballRadius, ballDiameter]),
      by norm_num [bottomWallState, initState, ballRadius, ballDiameter],
      by norm_num [bottomWallState, initState, ballRadius, ballDiameter], hnr⟩,
     wall_bounce_step bottomWallState 1
       (Or.inl (by norm_num [bottomWallState, initState, ballRadius, ballDiameter]))⟩

/-! ## C7: pause -/

/-- C9, the code at the failing input: on the 800 x 600 screen with the ball at `x = 350`,
which is not greater than `scrWidth / 2 = 400`, the paddle tested is index 1, because line
470 compares `ball.x` with `scrHeight / 2 = 300`. -/
theorem candidate_compares_with_scrHeight :
    ¬ (midfieldState.ballOffset.x > (midfieldState.scrWidth : ℚ) / 2) ∧
    midfieldState.ballOffset.x > (midfieldState.scrHeight : ℚ) / 2 ∧
    candidate midfieldState = 1 := by
  refine ⟨?_, ?_, ?_⟩
  · norm_num [midfieldState, initState]
  · norm_num [midfieldState, initState]
  · simp [candidate, midfieldState, initState]
    norm_num

/-- The paddle tested by the code, for every state: index 1 exactly when `ball.x` exceeds
`scrHeight / 2`. -/
theorem candidate_spec (s : State) :
    candidate s = if s.ballOffset.x > (s.scrHeight : ℚ) / 2 then 1 else 0 := rfl

/-- A consequence of the comparison of line 470: on the 200 x 600 screen the ball at
`x = 160` is in the right half and within `halfPaddleWidth` of the right paddle, yet the
paddle tested is index 0 and no collision is resolved. -/
theorem right_paddle_untested_after_resize :
    narrowScreenState.ballOffset.x > (narrowScreenState.scrWidth : ℚ) / 2 ∧
    |narrowScreenState.ballOffset.x - narrowScreenState.paddleOffsets1.x| ≤ halfPaddleWidth ∧
    candidate narrowScreenState = 0 ∧
    collisionResolved narrowScreenState = false := by
  refine ⟨?_, ?_, ?_, ?_⟩
  · norm_num [narrowScreenState, framebufferSizeCallback, initState]
  · norm_num [narrowScreenState, framebufferSizeCallback, initState, halfPaddleWidth,
      paddleWidth, abs_le]
  · simp [candidate, narrowScreenState, framebufferSizeCallback, initState]
    norm_num
  · simp [collisionResolved, checkRuns, broadPhase, distance, candidate, paddleOffsets,
      narrowScreenState, framebufferSizeCallback, initState, ballRadius, ballDiameter,
      halfPaddleWidth, paddleWidth, halfPaddleHeight, paddleHeight, unsetFrames, uintSize,
      framesThreshold]
    norm_num

/-! ## C10: the side-face test with `halfPaddleWidth < ballRadius` -/

/-- The keys `UP`, `DOWN` and `P` leave the left paddle and the screen height alone. -/
theorem keyUp_fields (k : Keys) (s : State) :
    (keyUp k s).paddleOffsets0 = s.paddleOffsets0 ∧
    (keyUp k s).paddleVelocities0 = s.paddleVelocities0 ∧
    (keyUp k s).scrHeight = s.scrHeight ∧
    (keyUp k s).gameSpeed = s.gameSpeed ∧
    (keyUp k s).framesSinceLastCollision = s.framesSinceLastCollision := by
  unfold keyUp
  split_ifs <;> simp

theorem keyDown_fields (k : Keys) (s : State) :
    (keyDown k s).paddleOffsets0 = s.paddleOffsets0 ∧
    (keyDown k s).paddleVelocities0 = s.paddleVelocities0 ∧
    (keyDown k s).scrHeight = s.scrHeight ∧
    (keyDown k s).gameSpeed = s.gameSpeed ∧
    (keyDown k s).framesSinceLastCollision = s.framesSinceLastCollision := by
  unfold keyDown
  split_ifs <;> simp

/-- The keys `W` and `S` leave the right paddle and the screen height alone. -/
theorem keyW_fields (k : Keys) (s : State) :
    (keyW k s).paddleOffsets1 = s.paddleOffsets1 ∧
    (keyW k s).paddleVelocities1 = s.paddleVelocities1 ∧
    (keyW k s).scrHeight = s.scrHeight ∧
    (keyW k s).gameSpeed = s.gameSpeed ∧
    (keyW k s).framesSinceLastCollision = s.framesSinceLastCollision := by
  unfold keyW
  split_ifs <;> simp

theorem keyS_fields (k : Keys) (s : State) :
    (keyS k s).paddleOffsets1 = s.paddleOffsets1 ∧
    (keyS k s).paddleVelocities1 = s.paddleVelocities1 ∧
    (keyS k s).scrHeight = s.scrHeight ∧
    (keyS k s).gameSpeed = s.gameSpeed ∧
    (keyS k s).framesSinceLastCollision = s.framesSinceLastCollision := by
  unfold keyS
  split_ifs <;> simp

/-- The pause key touches only the pause state. -/
theorem keyP_fields (k : Keys) (s : State) :
    (keyP k s).paddleOffsets0 = s.paddleOffsets0 ∧
    (keyP k s).paddleVelocities0 = s.paddleVelocities0 ∧
    (keyP k s).paddleOffsets1 = s.paddleOffsets1 ∧
    (keyP k s).paddleVelocities1 = s.paddleVelocities1 ∧
    (keyP k s).scrHeight = s.scrHeight ∧
    (keyP k s).framesSinceLastCollision = s.framesSinceLastCollision := by
  unfold keyP
  split_ifs <;> simp

theorem processInput_scrHeight (k : Keys) (s : State) :
    (processInput k s).scrHeight = s.scrHeight := by
  simp [processInput, keyP_fields, keyDown_fields, keyUp_fields, keyS_fields, keyW_fields]

theorem processInput_framesSinceLastCollision (k : Keys) (s : State) :
    (processInput k s).framesSinceLastCollision = s.framesSinceLastCollision := by
  simp [processInput, keyP_fields, keyDown_fields, keyUp_fields, keyS_fields, keyW_fields]

theorem applyResize_fields (r : Option (Nat × Nat)) (s : State) :
    (applyResize r s).framesSinceLastCollision = s.framesSinceLastCollision ∧
    (applyResize r s).ballVelocity = s.ballVelocity ∧
    (applyResize r s).initBallVelocity = s.initBallVelocity := by
  cases r with
  | none => exact ⟨rfl, rfl, rfl⟩
  | some p => exact ⟨rfl, rfl, rfl⟩

theorem keyW_ball (k : Keys) (s : State) :
    (keyW k s).ballVelocity = s.ballVelocity ∧
    (keyW k s).initBallVelocity = s.initBallVelocity := by
  unfold keyW
  split_ifs <;> simp

theorem keyS_ball (k : Keys) (s : State) :
    (keyS k s).ballVelocity = s.ballVelocity ∧
    (keyS k s).initBallVelocity = s.initBallVelocity := by
  unfold keyS
  split_ifs <;> simp

theorem keyUp_ball (k : Keys) (s : State) :
    (keyUp k s).ballVelocity = s.ballVelocity ∧
    (keyUp k s).initBallVelocity = s.initBallVelocity := by
  unfold keyUp
  split_ifs <;> simp

theorem keyDown_ball (k : Keys) (s : State) :
    (keyDown k s).ballVelocity = s.ballVelocity ∧
    (keyDown k s).initBallVelocity = s.initBallVelocity := by
  unfold keyDown
  split_ifs <;> simp

theorem keyP_ball (k : Keys) (s : State) :
    (keyP k s).ballVelocity = s.ballVelocity ∧
    (keyP k s).initBallVelocity = s.initBallVelocity := by
  unfold keyP
  split_ifs <;> simp

/-- The function `processInput` never touches the ball velocity or the serve velocity. -/
theorem processInput_ball (k : Keys) (s : State) :
    (processInput k s).ballVelocity = s.ballVelocity ∧
    (processInput k s).initBallVelocity = s.initBallVelocity := by
  simp [processInput, keyP_ball, keyDown_ball, keyUp_ball, keyS_ball, keyW_ball]

/-- A frame ends with the velocity and the counter the paddle check left. -/
theorem frame_fields (inp : FrameInput) (s : State) :
    (frame inp s).ballVelocity = (paddleCollision (atPaddleCheck inp s)).ballVelocity ∧
    (frame inp s).framesSinceLastCollision =
      (paddleCollision (atPaddleCheck inp s)).framesSinceLastCollision ∧
    (frame inp s).initBallVelocity = s.initBallVelocity := by
  simp [frame, atPaddleCheck, applyResize_fields, step_fields, processInput_ball]

/-- The state entering the paddle check carries the advanced counter. -/
theorem atPaddleCheck_frames (inp : FrameInput) (s : State) :
    (atPaddleCheck inp s).framesSinceLastCollision =
      (cooldownAdvance (processInput inp.keys s)).framesSinceLastCollision := by
  simp [atPaddleCheck, preCollision_fields]

/-- From a counter value `c` below 9 the cooldown advance gives `c + 1`. -/
theorem cooldownAdvance_frames_of_lt (s : State) (c : Nat)
    (hc : s.framesSinceLastCollision = c) (hlt : c < framesThreshold) :
    (cooldownAdvance s).framesSinceLastCollision = c + 1 := by
  have h1 : s.framesSinceLastCollision ≠ unsetFrames := by
    rw [hc]
    simp only [framesThreshold] at hlt
    simp only [unsetFrames, uintSize]
    omega
  have h2 : (c + 1) % uintSize = c + 1 := by
    apply Nat.mod_eq_of_lt
    simp only [framesThreshold] at hlt
    simp only [uintSize]
    omega
  unfold cooldownAdvance
  rw [if_pos h1]
  simp only [hc, h2]

/-- With a counter strictly between 0 and the threshold the paddle check does not run. -/
theorem checkRuns_false_of_lt (s : State) (h : s.framesSinceLastCollision < framesThreshold) :
    checkRuns s = false := by
  have h1 : ¬ s.framesSinceLastCollision ≥ framesThreshold := not_le.mpr h
  have h2 : s.framesSinceLastCollision ≠ unsetFrames := by
    simp only [framesThreshold] at h
    simp only [unsetFrames, uintSize]
    omega
  simp [checkRuns, h1, h2]

/-- A frame started with counter `c`, `c + 1 < 10`: the paddle check is skipped and the frame
ends with counter `c + 1`. -/
theorem frame_in_cooldown (inp : FrameInput) (s : State) (c : Nat)
    (hc : s.framesSinceLastCollision = c) (hlt : c + 1 < framesThreshold) :
    checkRuns (atPaddleCheck inp s) = false ∧
    (frame inp s).framesSinceLastCollision = c + 1 := by
  have hadv : (atPaddleCheck inp s).framesSinceLastCollision = c + 1 := by
    rw [atPaddleCheck_frames]
    exact cooldownAdvance_frames_of_lt _ c
      (by rw [processInput_framesSinceLastCollision, hc]) (by omega)
  have hck : checkRuns (atPaddleCheck inp s) = false :=
    checkRuns_false_of_lt _ (by rw [hadv]; exact hlt)
  refine ⟨hck, ?_⟩
  rw [(frame_fields inp s).2.1, paddleCollision_of_checkRuns_false _ hck, hadv]

/-- Through consecutive frames that all stay below the threshold the counter counts the
frames. -/
theorem runFrames_in_cooldown (ins : List FrameInput) :
    ∀ (s : State) (c : Nat), s.framesSinceLastCollision = c →
      c + ins.length < framesThreshold →
      (runFrames ins s).framesSinceLastCollision = c + ins.length := by
  induction ins with
  | nil =>
    intro s c hc _
    simpa [runFrames] using hc
  | cons inp rest ih =>
    intro s c hc hlt
    simp only [List.length_cons] at hlt
    have h1 := (frame_in_cooldown inp s c hc (by omega)).2
    have h2 := ih (frame inp s) (c + 1) h1 (by omega)
    simp only [runFrames, List.length_cons]
    rw [h2]
    omega

/-- A frame whose paddle check resolves a collision ends with the counter at 0. -/
theorem frame_frames_of_resolved (inp : FrameInput) (s : State)
    (hres : collisionResolved (atPaddleCheck inp s) = true) :
    (frame inp s).framesSinceLastCollision = 0 := by
  rw [(frame_fields inp s).2.1, paddleCollision_of_resolved _ hres]

/-! ## The size of the horizontal velocity -/

/-- The face and corner branches change `velocity.x` by a sign at most. -/
theorem abs_cornerVelocity_x (s : State) :
    |(cornerVelocity s).x| = |s.ballVelocity.x| := by
  unfold cornerVelocity faceVelocity
  split_ifs <;> simp

/-- A resolved collision multiplies the size of `velocity.x` by 11/10. -/
theorem abs_paddleCollision_x (s : State) (hres : collisionResolved s = true) :
    |(paddleCollision s).ballVelocity.x| = 11 / 10 * |s.ballVelocity.x| := by
  rw [paddleCollision_of_resolved s hres]
  simp only
  rw [abs_mul, abs_cornerVelocity_x, mul_comm]
  norm_num [abs_of_pos]

theorem preCollision_movesHorizontally (s : State) (h : movesHorizontally s) :
    movesHorizontally (preCollision s) := by
  obtain ⟨hi, hv⟩ := h
  refine ⟨by rw [(preCollision_fields s).2.2.2.2.2.2.1]; exact hi, ?_⟩
  by_cases h1 : 0 < s.ballOffset.x - ballRadius
  · by_cases h2 : s.ballOffset.x + ballRadius < (s.scrWidth : ℚ)
    · rw [(preCollision_inside s h1 h2).2.2.2, wallBounce_cooldownAdvance_ballVelocity]
      split_ifs <;> exact hv
    · rw [(preCollision_right s h1 (not_lt.mp h2)).2.2.2]
      simpa using hi
  · rw [(preCollision_left s (not_lt.mp h1)).2.2.2]
    exact hi

theorem paddleCollision_movesHorizontally (s : State) (h : movesHorizontally s) :
    movesHorizontally (paddleCollision s) := by
  obtain ⟨hi, hv⟩ := h
  refine ⟨by rw [(paddleCollision_fields s).2.2.2.2.2.2.2.1]; exact hi, ?_⟩
  by_cases hres : collisionResolved s = true
  · have habs := abs_paddleCollision_x s hres
    intro h0
    rw [h0, abs_zero] at habs
    have : |s.ballVelocity.x| = 0 := by linarith
    exact hv (abs_eq_zero.mp this)
  · rw [paddleCollision_of_not_resolved s (by simpa using hres)]
    exact hv

/-- Every state the program reaches has a ball that moves horizontally. -/
theorem Reachable.movesHorizontally {s : State} (h : Reachable s) : movesHorizontally s := by
  induction h with
  | init => exact ⟨by norm_num [initState], by norm_num [initState]⟩
  | frame inp s _ ih =>
    have h1 : Pong.movesHorizontally (processInput inp.keys s) := by
      unfold Pong.movesHorizontally
      rw [(processInput_ball inp.keys s).1, (processInput_ball inp.keys s).2]
      exact ih
    have h2 := paddleCollision_movesHorizontally _ (preCollision_movesHorizontally _ h1)
    unfold Pong.movesHorizontally at h2 ⊢
    rw [(frame_fields inp s).1, (frame_fields inp s).2.2]
    refine ⟨ih.1, ?_⟩
    exact h2.2

/-! ## C5 and C6: collision response and debounce -/

theorem resizedStartState_eq :
    resizedStartState =
      { initState with
        scrWidth := 440
        paddleOffsets1 := ⟨405, 300⟩
        ballOffset := ⟨12875 / 32, 9675 / 32⟩ } := by
  simp [resizedStartState, frame, applyResize, framebufferSizeCallback, idleKeys, processInput,
    keyW, keyS, keyUp, keyDown, keyP, step, integrate, paddleCollision, preCollision,
    scoreAndReset, resetBall, resetFlag, scoring, wallBounce, cooldownAdvance, atWall,
    checkRuns, broadPhase, distance, candidate, paddleOffsets, initState, ballRadius,
    ballDiameter, halfPaddleWidth, paddleWidth, halfPaddleHeight, paddleHeight, unsetFrames,
    uintSize, framesThreshold]
  norm_num

/-- In the frame after `resizedStartState` the paddle check resolves a collision. -/
theorem resizedStartState_resolves :
    collisionResolved (atPaddleCheck idle resizedStartState) = true := by
  rw [resizedStartState_eq]
  simp [atPaddleCheck, idle, idleKeys, processInput, keyW, keyS, keyUp, keyDown, keyP,
    collisionResolved, collisionFlag, faceCollision, sideFaceHit, preCollision,
    scoreAndReset, resetBall, resetFlag, scoring, wallBounce, cooldownAdvance, atWall,
    checkRuns, broadPhase, distance, candidate, paddleOffsets, initState, ballRadius,
    ballDiameter, halfPaddleWidth, paddleWidth, halfPaddleHeight, paddleHeight, unsetFrames,
    uintSize, framesThreshold]
  norm_num [abs_le, abs_of_neg, abs_of_pos]

/-- C6: after a frame whose paddle check resolved a collision, in each of the next nine
frames the paddle check does not run and resolves nothing, whatever the positions of the ball
and the paddles, the keys, the elapsed times and the resizes are: the paddle stage leaves the
state as it found it (velocity and counter included) and the frame ends with the counter equal
to the number of frames elapsed since the collision.  In every state the check runs exactly
when the counter is unset or at least the threshold 10, and when it does not run the paddle
stage changes nothing. -/
theorem collision_debounce (s : State) (inp : FrameInput)
    (hres : collisionResolved (atPaddleCheck inp s) = true)
    (ins : List FrameInput) (nxt : FrameInput) (hlen : ins.length < 9) :
    checkRuns (atPaddleCheck nxt (runFrames ins (frame inp s))) = false ∧
    collisionResolved (atPaddleCheck nxt (runFrames ins (frame inp s))) = false ∧
    paddleCollision (atPaddleCheck nxt (runFrames ins (frame inp s))) =
      atPaddleCheck nxt (runFrames ins (frame inp s)) ∧
    (frame nxt (runFrames ins (frame inp s))).ballVelocity =
      (atPaddleCheck nxt (runFrames ins (frame inp s))).ballVelocity ∧
    (frame nxt (runFrames ins (frame inp s))).framesSinceLastCollision = ins.length + 1 ∧
    (∀ u : State, checkRuns u = true ↔
      (u.framesSinceLastCollision = unsetFrames ∨
        framesThreshold ≤ u.framesSinceLastCollision)) ∧
    (∀ u : State, checkRuns u = false → paddleCollision u = u) := by
  have h0 := frame_frames_of_resolved inp s hres
  have hn : (runFrames ins (frame inp s)).framesSinceLastCollision = ins.length := by
    have := runFrames_in_cooldown ins (frame inp s) 0 h0
      (by simp only [framesThreshold]; omega)
    simpa using this
  obtain ⟨hck, hfr⟩ := frame_in_cooldown nxt (runFrames ins (frame inp s)) ins.length hn
    (by simp only [framesThreshold]; omega)
  have hid := paddleCollision_of_checkRuns_false _ hck
  refine ⟨hck, collisionResolved_of_checkRuns_false _ hck, hid, ?_, hfr, ?_, ?_⟩
  · rw [(frame_fields nxt _).1, hid]
  · intro u
    simp only [checkRuns, Bool.or_eq_true, decide_eq_true_eq, ge_iff_le]
    exact or_comm
  · intro u hu
    exact paddleCollision_of_checkRuns_false u hu

/-- C6 at the collision of `resizedStartState`: eight idle frames follow it and the ninth is
examined. -/
theorem collision_debounce_witness :
    (collisionResolved (atPaddleCheck idle resizedStartState) = true ∧
      (List.replicate 8 idle).length < 9) ∧
    (checkRuns (atPaddleCheck idle
        (runFrames (List.replicate 8 idle) (frame idle resizedStartState))) = false ∧
    collisionResolved (atPaddleCheck idle
        (runFrames (List.replicate 8 idle) (frame idle resizedStartState))) = false ∧
    paddleCollision (atPaddleCheck idle
        (runFrames (List.replicate 8 idle) (frame idle resizedStartState))) =
      atPaddleCheck idle (runFrames (List.replicate 8 idle) (frame idle resizedStartState)) ∧
    (frame idle (runFrames (List.replicate 8 idle) (frame idle resizedStartState))).ballVelocity =
      (atPaddleCheck idle
        (runFrames (List.replicate 8 idle) (frame idle resizedStartState))).ballVelocity ∧
    (frame idle
        (runFrames (List.replicate 8 idle)
          (frame idle resizedStartState))).framesSinceLastCollision =
      (List.replicate 8 idle).length + 1 ∧
    (∀ u : State, checkRuns u = true ↔
      (u.framesSinceLastCollision = unsetFrames ∨
        framesThreshold ≤ u.framesSinceLastCollision)) ∧
    (∀ u : State, checkRuns u = false → paddleCollision u = u)) :=
  ⟨⟨resizedStartState_resolves, by simp⟩,
   collision_debounce resizedStartState idle resizedStartState_resolves
     (List.replicate 8 idle) idle (by simp)⟩

/-- The debounce ends with the tenth frame: there the counter reaches the threshold and the
paddle check runs again. -/
theorem check_runs_in_tenth_frame (s : State) (inp : FrameInput)
    (hres : collisionResolved (atPaddleCheck inp s) = true)
    (ins : List FrameInput) (nxt : FrameInput) (hlen : ins.length = 9) :
    checkRuns (atPaddleCheck nxt (runFrames ins (frame inp s))) = true := by
  have h0 := frame_frames_of_resolved inp s hres
  have hn : (runFrames ins (frame inp s)).framesSinceLastCollision = ins.length := by
    have := runFrames_in_cooldown ins (frame inp s) 0 h0
      (by simp only [framesThreshold]; omega)
    simpa using this
  have h10 : (atPaddleCheck nxt (runFrames ins (frame inp s))).framesSinceLastCollision
      = 9 + 1 := by
    rw [atPaddleCheck_frames]
    exact cooldownAdvance_frames_of_lt _ 9
      (by rw [processInput_framesSinceLastCollision, hn, hlen]) (by simp [framesThreshold])
  simp [checkRuns, h10, framesThreshold]

/-! ## Interactions between the stages of one step -/

/-- After a score on the 70 x 600 screen the served ball sits on the left paddle, the paddle
check of the same step resolves a side-face hit, and the step ends with velocity
`(-165, 150)` instead of the serve velocity `(150, 150)`. -/
theorem serve_hits_paddle_at_centre :
    centreHitState.ballOffset.x - ballRadius ≤ 0 ∧
    collisionResolved (preCollision centreHitState) = true ∧
    (step 1 centreHitState).ballVelocity = ⟨-165, 150⟩ := by
  refine ⟨?_, ?_, ?_⟩
  · norm_num [centreHitState, framebufferSizeCallback, leftExitState, initState, ballRadius,
      ballDiameter]
  · simp [collisionResolved, collisionFlag, faceCollision, sideFaceHit, preCollision,
      scoreAndReset, resetBall, resetFlag, scoring, wallBounce, cooldownAdvance, atWall,
      checkRuns, broadPhase, distance, candidate, paddleOffsets, centreHitState,
      framebufferSizeCallback, leftExitState, initState, ballRadius, ballDiameter,
      halfPaddleWidth, paddleWidth, halfPaddleHeight, paddleHeight, unsetFrames, uintSize,
      framesThreshold]
    norm_num
  · simp [step, integrate, paddleCollision, collisionFlag, faceCollision, sideFaceHit,
      cornerVelocity, faceVelocity, cornerHit, paddleVelocities, preCollision,
      scoreAndReset, resetBall, resetFlag, scoring, wallBounce, cooldownAdvance, atWall,
      checkRuns, broadPhase, distance, candidate, paddleOffsets, centreHitState,
      framebufferSizeCallback, leftExitState, initState, ballRadius, ballDiameter,
      halfPaddleWidth, paddleWidth, halfPaddleHeight, paddleHeight, unsetFrames, uintSize,
      framesThreshold]
    norm_num

/-- With the ball on the bottom wall and on the paddle's horizontal face at once, the wall
bounce negates `velocity.y` and the paddle response negates it back: the step ends with
velocity `(-165, -150)`. -/
theorem wall_bounce_undone_by_paddle :
    wallAndPaddleState.ballOffset.y - ballRadius ≤ 0 ∧
    (0 < wallAndPaddleState.ballOffset.x - ballRadius ∧
      wallAndPaddleState.ballOffset.x + ballRadius < (wallAndPaddleState.scrWidth : ℚ)) ∧
    collisionResolved (preCollision wallAndPaddleState) = true ∧
    (step 1 wallAndPaddleState).ballVelocity = ⟨-165, -150⟩ := by
  refine ⟨?_, ⟨?_, ?_⟩, ?_, ?_⟩
  · norm_num [wallAndPaddleState, initState, ballRadius, ballDiameter]
  · norm_num [wallAndPaddleState, initState, ballRadius, ballDiameter]
  · norm_num [wallAndPaddleState, initState, ballRadius, ballDiameter]
  · simp [collisionResolved, collisionFlag, faceCollision, sideFaceHit, vertFaceHit,
      preCollision, scoreAndReset, resetBall, resetFlag, scoring, wallBounce, cooldownAdvance,
      atWall, checkRuns, broadPhase, distance, candidate, paddleOffsets, wallAndPaddleState,
      initState, ballRadius, ballDiameter, halfPaddleWidth, paddleWidth, halfPaddleHeight,
      paddleHeight, unsetFrames, uintSize, framesThreshold]
    norm_num
  · simp [step, integrate, paddleCollision, collisionFlag, faceCollision, sideFaceHit,
      vertFaceHit, cornerVelocity, faceVelocity, cornerHit, paddleVelocities, preCollision,
      scoreAndReset, resetBall, resetFlag, scoring, wallBounce, cooldownAdvance, atWall,
      checkRuns, broadPhase, distance, candidate, paddleOffsets, wallAndPaddleState,
      initState, ballRadius, ballDiameter, halfPaddleWidth, paddleWidth, halfPaddleHeight,
      paddleHeight, unsetFrames, uintSize, framesThreshold]
    norm_num

/-- In the frame right after a resolved collision the ball is still within the side-face
region of the paddle it hit, and the collision is not resolved again. -/
theorem overlap_ignored_during_cooldown :
    collisionResolved (atPaddleCheck quick resizedStartState) = true ∧
    broadPhase (atPaddleCheck quick (frame quick resizedStartState)) = true ∧
    sideFaceHit (atPaddleCheck quick (frame quick resizedStartState)) = true ∧
    collisionResolved (atPaddleCheck quick (frame quick resizedStartState)) = false := by
  have hres : collisionResolved (atPaddleCheck quick resizedStartState) = true :=
    resizedStartState_resolves
  have hfr : frame quick resizedStartState =
      { initState with
        scrWidth := 440
        paddleOffsets1 := ⟨405, 300⟩
        ballOffset := ⟨12875 / 32 - 165 / 1024, 9675 / 32 + 150 / 1024⟩
        ballVelocity := ⟨-165, 150⟩
        framesSinceLastCollision := 0 } := by
    rw [resizedStartState_eq]
    simp [frame, applyResize, quick, idleKeys, processInput, keyW, keyS, keyUp, keyDown, keyP,
      step, integrate, paddleCollision, collisionFlag, faceCollision, sideFaceHit,
      cornerVelocity, faceVelocity, cornerHit, paddleVelocities, preCollision,
      scoreAndReset, resetBall, resetFlag, scoring, wallBounce, cooldownAdvance, atWall,
      checkRuns, broadPhase, distance, candidate, paddleOffsets, initState, ballRadius,
      ballDiameter, halfPaddleWidth, paddleWidth, halfPaddleHeight, paddleHeight,
      unsetFrames, uintSize, framesThreshold]
    norm_num [abs_le, abs_of_neg, abs_of_pos]
  have hck := (frame_in_cooldown quick (frame quick resizedStartState) 0
    (frame_frames_of_resolved quick resizedStartState hres) (by simp [framesThreshold])).1
  refine ⟨hres, ?_, ?_, collisionResolved_of_checkRuns_false _ hck⟩
  · rw [hfr]
    simp [atPaddleCheck, quick, idleKeys, processInput, keyW, keyS, keyUp, keyDown, keyP,
      preCollision, scoreAndReset, resetBall, resetFlag, scoring, wallBounce,
      cooldownAdvance, atWall, broadPhase, distance, candidate, paddleOffsets, initState,
      ballRadius, ballDiameter, halfPaddleWidth, paddleWidth, halfPaddleHeight, paddleHeight,
      unsetFrames, uintSize]
    norm_num [abs_le, abs_of_neg, abs_of_pos]
  · rw [hfr]
    simp [atPaddleCheck, quick, idleKeys, processInput, keyW, keyS, keyUp, keyDown, keyP,
      preCollision, scoreAndReset, resetBall, resetFlag, scoring, wallBounce,
      cooldownAdvance, atWall, sideFaceHit, distance, candidate, paddleOffsets, initState,
      ballRadius, ballDiameter, halfPaddleWidth, paddleWidth, halfPaddleHeight, paddleHeight,
      unsetFrames, uintSize]
    norm_num [abs_le, abs_of_neg, abs_of_pos]

end Pong
